import Mathlib

/-!
Verification of the polity role-election coordinator (shipwire/ansqd,
internal/polity).  The repository contains two successive generations of the
package; wire-format pairing identifies the latest coherent snapshot as:
the later `polity.go` (doc-comment version with `runConfirmation`), the later
`stateMachine.go` (five-value status with the incumbent re-election branch),
the `QueryRole` resolver, `quorum.go` and `time.go`.  All definitions below
are shallow embeddings of that Go source; where a claim is about an earlier
generation the embedding notes it.  serf.LamportTime is uint64 and is
modelled as Nat (no arithmetic that could overflow occurs); Go `int` values
are modelled as Int (populations, vote counts) or Nat where the source only
ever produces non-negative values.
-/

/-- Status enumeration from stateMachine.go (later definition):
`invalid, running, confirmed, impeached, recalled` in `iota` order. -/
inductive status where
  | invalid
  | running
  | confirmed
  | impeached
  | recalled
deriving DecidableEq, Repr, Fintype

/-- `(s status) vacant() bool`: `s == invalid || s == recalled`. -/
def status.vacant (s : status) : Bool :=
  s = status.invalid || s = status.recalled

/-- `(s status) eq(other status) bool` (identical in both generations of
stateMachine.go): `confirmed, impeached` accept `confirmed` or `impeached`;
`recalled, running, invalid` accept `running`, `recalled` or `impeached`. -/
def status.eq (s other : status) : Bool :=
  match s with
  | status.confirmed | status.impeached =>
      other = status.confirmed || other = status.impeached
  | status.recalled | status.running | status.invalid =>
      other = status.running || other = status.recalled || other = status.impeached

/-- `(s status) confirmed(other status) bool` from the later stateMachine.go
(the spec calls this predicate `advances`; the Go method name collides with
the `confirmed` constructor, so the spec's name is used here):
`impeached, recalled` accept `recalled`; `running, confirmed` accept
`confirmed`; the default branch returns false. -/
def status.advances (s other : status) : Bool :=
  match s with
  | status.impeached | status.recalled => other = status.recalled
  | status.running | status.confirmed => other = status.confirmed
  | status.invalid => false

/-- Role record from stateMachine.go: `node string; status status;
time serf.LamportTime`. -/
structure role where
  node : String
  status : status
  time : Nat
deriving DecidableEq, Repr

/-- The role store `p.roles map[string]role`, modelled as an association
list (keys unique by construction of `setRole`). -/
def roleMap := List (String × role)

/-- Go map read `p.roles[r]` with its `ok` flag. -/
def lookupRole : roleMap → String → Option role
  | [], _ => none
  | (k, v) :: rest, r => if k = r then some v else lookupRole rest r

/-- Go map write `p.roles[r] = v` (overwrites an existing key, otherwise
appends). -/
def setRole : roleMap → String → role → roleMap
  | [], r, v => [(r, v)]
  | (k, w) :: rest, r, v =>
      if k = r then (k, v) :: rest else (k, w) :: setRole rest r v

theorem lookupRole_setRole_self (m : roleMap) (k : String) (v : role) :
    lookupRole (setRole m k v) k = some v := by
  induction m with
  | nil => simp [setRole, lookupRole]
  | cons kv rest ih =>
      obtain ⟨k', w⟩ := kv
      by_cases h : k' = k <;> simp [setRole, lookupRole, h, ih]

/-- LamportWindow from time.go: an interval `[earliest, latest]` of
`serf.LamportTime` (uint64, modelled as Nat); the zero value has both
endpoints 0. -/
structure LamportWindow where
  earliest : Nat
  latest : Nat
deriving DecidableEq, Repr

/-- `(l *LamportWindow) Witness(other)`: `if l.earliest > other { l.earliest =
other }; if l.latest < other || l.latest == 0 { l.latest = other }`. -/
def LamportWindow.Witness (l : LamportWindow) (other : Nat) : LamportWindow :=
  let l1 := if l.earliest > other then { l with earliest := other } else l
  if l1.latest < other || l1.latest = 0 then { l1 with latest := other } else l1

/-- `(l *LamportWindow) Before(t)`: `t < l.earliest`. -/
def LamportWindow.Before (l : LamportWindow) (t : Nat) : Bool :=
  t < l.earliest

/-- `(l *LamportWindow) After(t)`: `t > l.latest`. -/
def LamportWindow.After (l : LamportWindow) (t : Nat) : Bool :=
  t > l.latest

/-- Bit length of a natural number, with explicit fuel: `bits fuel n` is the
number of binary digits of `n` provided `n < 2 ^ fuel`.  64 bits of fuel
cover every Go `int`. -/
def bits : Nat → Nat → Nat
  | 0, _ => 0
  | fuel + 1, n => if n = 0 then 0 else bits fuel (n / 2) + 1

/-- Go's `float64(n)` conversion for a natural `n < 2 ^ 64`, as the natural
number the resulting IEEE-754 double denotes.  Below `2 ^ 53` every integer
is representable and the conversion is exact.  Above, a double in the
binade `[2 ^ (52 + k), 2 ^ (53 + k))` is a multiple of the unit in the last
place `2 ^ k`, and the conversion rounds to the nearest such multiple, ties
to the even quotient. -/
def roundFloat (n : Nat) : Nat :=
  if n < 2 ^ 53 then n
  else
    let k := bits 64 n - 53
    let ulp := 2 ^ k
    let q := n / ulp
    let r := n % ulp
    if r < ulp / 2 then q * ulp
    else if ulp / 2 < r then (q + 1) * ulp
    else (if q % 2 = 0 then q else q + 1) * ulp

/-- quorum.go `SimpleMajority = QuorumPercentage(.5, 3)`:
`votesRequired = int(float64(population)*0.5) + 1; if votesRequired < 3
{ return 3 }; return votesRequired`.  `float64(population)` rounds to the
nearest representable double (`roundFloat` on the absolute value; the
conversion is symmetric in sign), multiplying a double by 0.5 is an exact
halving (exponent decrement, no underflow in this range), and Go's `int()`
conversion truncates toward zero, so `int(float64(p)*0.5)` is
`sign(p) * (roundFloat |p| / 2)`. -/
def SimpleMajority (population : Int) : Int :=
  let votesRequired : Int :=
    population.sign * ((roundFloat population.natAbs / 2 : Nat) : Int) + 1
  if votesRequired < 3 then 3 else votesRequired

example : SimpleMajority 1 = 3 := by decide
example : SimpleMajority 3 = 3 := by decide
example : SimpleMajority 5 = 3 := by decide
example : SimpleMajority 9 = 5 := by decide
example : SimpleMajority (-5) = 3 := by decide

/-- `(p *Polity) vote(q *serf.Query)` from the later stateMachine.go
(lines 207-229 of its source fragment).  The response payload is modelled as
its whitespace-separated token list (Go builds it with `fmt.Sprintln`):
- existing record with `status == confirmed && node == candidate`:
  respond `YES candidate`, write `role{candidate, running, q.LTime}`;
- otherwise an existing non-vacant record: respond `NO existing.node`,
  store unchanged;
- otherwise (absent, or vacant): respond `YES candidate`, write
  `role{candidate, running, q.LTime}`. -/
def vote (m : roleMap) (candidate r : String) (lt : Nat) : List String × roleMap :=
  match lookupRole m r with
  | some existing =>
      if existing.status = status.confirmed ∧ existing.node = candidate then
        (["YES", candidate], setRole m r ⟨candidate, status.running, lt⟩)
      else if existing.status.vacant = false then
        (["NO", existing.node], m)
      else
        (["YES", candidate], setRole m r ⟨candidate, status.running, lt⟩)
  | none => (["YES", candidate], setRole m r ⟨candidate, status.running, lt⟩)

/-- `(p *Polity) confirmRecall(q *serf.Query)` from the later
stateMachine.go (lines 268-281 of its source fragment): if the role is
present, set `status = recalled` and `time = q.LTime` (holder unchanged);
if it is absent the store is not touched.  (The earlier generation instead
created `role{node: "-", status: recalled, time: q.LTime}` when absent.) -/
def confirmRecall (m : roleMap) (r : String) (lt : Nat) : roleMap :=
  match lookupRole m r with
  | some existing => setRole m r ⟨existing.node, status.recalled, lt⟩
  | none => m

/-- A response received by an outbound driver: the wire payload as its
token list, together with the driver's local membership count
`p.s.Memberlist().NumMembers()` observed when the response is processed
(the Go loop reads it afresh for every response). -/
structure VoteResponse where
  payload : List String
  localPop : Nat
deriving DecidableEq, Repr

/-- `fmt.Sscanln(string(rsp.Payload), &vote, &node)`: succeeds exactly when
the payload consists of two whitespace-separated tokens followed by the
newline, yielding them; any other shape is an error (the Go loop then skips
the response with `continue`). -/
def parse2 : List String → Option (String × String)
  | [v, n] => some (v, n)
  | _ => none

/-- Vote-gathering state of `RunElection` / `RunRecallElection`:
`votesRequired` and `yesVotes` (Go `int`). -/
structure ElectionState where
  votesRequired : Int
  yesVotes : Int
deriving DecidableEq, Repr

/-- One iteration of the response loop shared by `RunElection` and
`RunRecallElection` (polity.go, later generation): parse `vote node` (skip
on error), set `votesRequired = max(votesRequired,
p.QuorumFunc(population))` where `population :=
p.s.Memberlist().NumMembers()` is the driver's local count, and count the
vote when `vote == "YES"`.  `p.QuorumFunc` is the default
`SimpleMajority`. -/
def electionStep (s : ElectionState) (r : VoteResponse) : ElectionState :=
  match parse2 r.payload with
  | none => s
  | some (v, _) =>
      let nvr := SimpleMajority (r.localPop : Int)
      let s1 : ElectionState :=
        if s.votesRequired < nvr then ⟨nvr, s.yesVotes⟩ else s
      if v = "YES" then ⟨s1.votesRequired, s1.yesVotes + 1⟩ else s1

/-- The vote-gathering phase of `RunElection` (polity.go lines 116-159 of
the later generation) over the received responses, starting from
`votesRequired = p.QuorumFunc(3)` and `yesVotes = 0`. -/
def electionTally (rs : List VoteResponse) : ElectionState :=
  rs.foldl electionStep ⟨SimpleMajority 3, 0⟩

/-- Caller-observable outcome of a driver's vote-gathering phase:
`lost` is `ErrLostElection`; `confirm votesRequired` is the hand-off to
`runConfirmation`; `roleUnfilled` is `ErrRoleUnfilled` (declared in
polity.go; the earlier generation's recall pre-check returned it). -/
inductive driverOutcome where
  | lost
  | confirm (votesRequired : Int)
  | roleUnfilled
deriving DecidableEq, Repr

/-- Vote-gathering phase of `RunRecallElection` (polity.go lines 226-265 of
the later generation): starts from the literal `votesRequired := 3` and
`yesVotes := 0`, folds the same response loop, and fails with
`ErrLostElection` when `yesVotes < votesRequired`, otherwise hands
`votesRequired` to `runConfirmation`.  The method receives the local role
store (receiver field `p.roles`) and the role, but its vote-gathering logic
reads neither: there is no local pre-check (underscored parameters). -/
def RunRecallElection (_roles : roleMap) (_r : String) (rs : List VoteResponse) :
    driverOutcome :=
  let s := rs.foldl electionStep ⟨3, 0⟩
  if s.yesVotes < s.votesRequired then driverOutcome.lost
  else driverOutcome.confirm s.votesRequired

example : (electionTally [⟨["YES", "A"], 3⟩]).votesRequired = 3 := by decide
example : (electionTally [⟨["YES", "A"], 9⟩]).votesRequired = 5 := by decide
example : RunRecallElection [] "leader" [] = driverOutcome.lost := by decide

/-- The default quorum requirement on a natural population, in Nat:
`max(p/2 + 1, 3)`.  `simpleMajority_eq_quorumNat` shows this is exactly
`SimpleMajority` (quorum.go) restricted to non-negative populations. -/
def quorumNat (p : Nat) : Nat := max (p / 2 + 1) 3

theorem simpleMajority_eq_quorumNat (p : Nat) (hp : p < 2 ^ 53) :
    SimpleMajority (p : Int) = (quorumNat p : Int) := by
  cases p with
  | zero => decide
  | succ n =>
      have hsign : Int.sign ((n + 1 : Nat) : Int) = 1 := rfl
      have habs : Int.natAbs ((n + 1 : Nat) : Int) = n + 1 := rfl
      have hrf : roundFloat (n + 1) = n + 1 := by
        simp only [roundFloat]
        rw [if_pos hp]
      simp only [SimpleMajority, quorumNat, hsign, habs, hrf, one_mul]
      split <;> push_cast <;> omega

/-- A well-formed peer answer to `polity.query`, as parsed by `QueryRole`
(query.go): `fmt.Sscanln(payload, &node, &status, &time, &population)`. -/
structure QueryResponse where
  node : String
  st : status
  time : Nat
  population : Nat
deriving DecidableEq, Repr

/-- The resolver's per-round state in `QueryRole`: `answer`,
`answerStatus`, `votes` and `window`. -/
structure ResolverState where
  answer : String
  answerStatus : status
  votes : Nat
  window : LamportWindow
deriving DecidableEq, Repr

/-- The two store-updating steps of the `QueryRole` response loop
(query.go lines 53-66), shared verbatim by every variant modelled below:
the reset on an incompatible newer status (`votes = 1`, fresh window
witnessing the time, adopt `node`/`status`), followed by the
matching-holder count (`votes++; window.Witness(time)`). -/
def resolverShift (st : ResolverState) (r : QueryResponse) : ResolverState :=
  let st1 : ResolverState :=
    if status.eq r.st st.answerStatus = false ∧ st.window.After r.time = true then
      ⟨r.node, r.st, 1, LamportWindow.Witness ⟨0, 0⟩ r.time⟩
    else st
  if r.node = st1.answer then
    ⟨st1.answer, st1.answerStatus, st1.votes + 1, st1.window.Witness r.time⟩
  else st1

/-- The response loop of `(p *Polity) QueryRole` (query.go lines 27-71),
one protocol step per received response:
update `votesRequired = max(votesRequired, population/2 + 1)`; discard
`"-"` answers; discard responses for a different holder that fall before
the window; then `resolverShift` (reset / count), and return `node` as
soon as `votes >= votesRequired`; `none` (ErrLostElection) on drain. -/
def queryLoop : Nat → ResolverState → List QueryResponse → Option String
  | _, _, [] => none
  | vr, st, r :: rest =>
      let vr' := max vr (r.population / 2 + 1)
      if r.node = "-" then
        queryLoop vr' st rest
      else if r.node ≠ st.answer ∧ st.window.Before r.time = true then
        queryLoop vr' st rest
      else
        let st2 := resolverShift st r
        if vr' ≤ st2.votes then some r.node
        else queryLoop vr' st2 rest

/-- `QueryRole` over the list of received responses, from its initial state
`votesRequired = 3`, empty `answer`, zero `answerStatus` (= invalid),
`votes = 0`, zero window. -/
def QueryRole (rs : List QueryResponse) : Option String :=
  queryLoop 3 ⟨"", status.invalid, 0, ⟨0, 0⟩⟩ rs

/-- Modelled from the spec (section 4.4): the same resolver loop, except
that step 1 recomputes `votes_required = max(votes_required, Q(population))`
with the quorum function `Q` itself, and step 6 returns `answer`. -/
def queryLoopSpec : Nat → ResolverState → List QueryResponse → Option String
  | _, _, [] => none
  | vr, st, r :: rest =>
      let vr' := max vr (quorumNat r.population)
      if r.node = "-" then
        queryLoopSpec vr' st rest
      else if r.node ≠ st.answer ∧ st.window.Before r.time = true then
        queryLoopSpec vr' st rest
      else
        let st2 := resolverShift st r
        if vr' ≤ st2.votes then some st2.answer
        else queryLoopSpec vr' st2 rest

/-- The spec's resolver from the same initial state. -/
def QueryRoleSpec (rs : List QueryResponse) : Option String :=
  queryLoopSpec 3 ⟨"", status.invalid, 0, ⟨0, 0⟩⟩ rs

/-- The resolver loop with the stale-response discard branch (query.go
lines 48-51, the step guarded by `node != answer && window.Before(time)`)
deleted.  Agreement with `queryLoop` makes that branch dead code. -/
def queryLoopNoStale : Nat → ResolverState → List QueryResponse → Option String
  | _, _, [] => none
  | vr, st, r :: rest =>
      let vr' := max vr (r.population / 2 + 1)
      if r.node = "-" then
        queryLoopNoStale vr' st rest
      else
        let st2 := resolverShift st r
        if vr' ≤ st2.votes then some r.node
        else queryLoopNoStale vr' st2 rest

/-- `QueryRole` with the stale-discard branch removed. -/
def QueryRoleNoStale (rs : List QueryResponse) : Option String :=
  queryLoopNoStale 3 ⟨"", status.invalid, 0, ⟨0, 0⟩⟩ rs

theorem Witness_earliest_zero (w : LamportWindow) (t : Nat)
    (h : w.earliest = 0) : (w.Witness t).earliest = 0 := by
  have h1 : ¬ (w.earliest > t) := by omega
  simp only [LamportWindow.Witness, if_neg h1]
  split <;> simp [h]

theorem foldl_Witness_earliest :
    ∀ (ts : List Nat) (w : LamportWindow), w.earliest = 0 →
      (ts.foldl LamportWindow.Witness w).earliest = 0
  | [], _, h => h
  | t :: ts, w, h =>
      foldl_Witness_earliest ts (w.Witness t) (Witness_earliest_zero w t h)

theorem Before_false_of_earliest_zero (w : LamportWindow) (t : Nat)
    (h : w.earliest = 0) : w.Before t = false := by
  simp [LamportWindow.Before, h]

theorem resolverShift_of_ne (st : ResolverState) (r : QueryResponse)
    (h : r.node ≠ (resolverShift st r).answer) : resolverShift st r = st := by
  by_cases hreset : status.eq r.st st.answerStatus = false ∧ st.window.After r.time = true
  · simp [resolverShift, hreset] at h
  · by_cases hmatch : r.node = st.answer
    · simp [resolverShift, hreset, hmatch] at h
    · simp [resolverShift, hreset, hmatch]

theorem resolverShift_window_zero (st : ResolverState) (r : QueryResponse)
    (h : st.window.earliest = 0) : (resolverShift st r).window.earliest = 0 := by
  simp only [resolverShift]
  split
  · split
    · exact Witness_earliest_zero _ _ (Witness_earliest_zero ⟨0, 0⟩ _ rfl)
    · exact Witness_earliest_zero ⟨0, 0⟩ _ rfl
  · split
    · exact Witness_earliest_zero _ _ h
    · exact h

theorem queryLoop_eq_noStale :
    ∀ (rs : List QueryResponse) (vr : Nat) (st : ResolverState),
      st.window.earliest = 0 →
      queryLoop vr st rs = queryLoopNoStale vr st rs := by
  intro rs
  induction rs with
  | nil => intro vr st _; rfl
  | cons r rest ih =>
      intro vr st h
      simp only [queryLoop, queryLoopNoStale]
      by_cases hdash : r.node = "-"
      · rw [if_pos hdash, if_pos hdash]
        exact ih _ _ h
      · rw [if_neg hdash, if_neg hdash]
        have hstale : ¬ (r.node ≠ st.answer ∧ st.window.Before r.time = true) := by
          simp [Before_false_of_earliest_zero st.window r.time h]
        rw [if_neg hstale]
        by_cases hret : max vr (r.population / 2 + 1) ≤ (resolverShift st r).votes
        · rw [if_pos hret, if_pos hret]
        · rw [if_neg hret, if_neg hret]
          exact ih _ _ (resolverShift_window_zero st r h)

theorem queryLoop_eq_spec :
    ∀ (rs : List QueryResponse) (vr : Nat) (st : ResolverState),
      3 ≤ vr → st.votes < vr →
      queryLoop vr st rs = queryLoopSpec vr st rs := by
  intro rs
  induction rs with
  | nil => intro vr st _ _; rfl
  | cons r rest ih =>
      intro vr st h3 hlt
      have hvr : max vr (quorumNat r.population) = max vr (r.population / 2 + 1) := by
        simp only [quorumNat]
        omega
      have hmax : vr ≤ max vr (r.population / 2 + 1) := le_max_left _ _
      have h3' : 3 ≤ max vr (r.population / 2 + 1) := le_trans h3 hmax
      simp only [queryLoop, queryLoopSpec, hvr]
      by_cases hdash : r.node = "-"
      · rw [if_pos hdash, if_pos hdash]
        exact ih _ _ h3' (lt_of_lt_of_le hlt hmax)
      · rw [if_neg hdash, if_neg hdash]
        by_cases hstale : r.node ≠ st.answer ∧ st.window.Before r.time = true
        · rw [if_pos hstale, if_pos hstale]
          exact ih _ _ h3' (lt_of_lt_of_le hlt hmax)
        · rw [if_neg hstale, if_neg hstale]
          by_cases hret : max vr (r.population / 2 + 1) ≤ (resolverShift st r).votes
          · rw [if_pos hret, if_pos hret]
            by_cases hans : r.node = (resolverShift st r).answer
            · rw [hans]
            · have heq := resolverShift_of_ne st r hans
              rw [heq] at hret
              omega
          · rw [if_neg hret, if_neg hret]
            exact ih _ _ h3' (by omega)

theorem foldl_electionStep_votesRequired :
    ∀ (rs : List VoteResponse) (s : ElectionState),
      (rs.foldl electionStep s).votesRequired =
        rs.foldl
          (fun acc r =>
            match parse2 r.payload with
            | some _ => max acc (SimpleMajority (r.localPop : Int))
            | none => acc)
          s.votesRequired := by
  intro rs
  induction rs with
  | nil => intro s; rfl
  | cons r rest ih =>
      intro s
      simp only [List.foldl]
      rw [ih]
      congr 1
      cases hp : parse2 r.payload with
      | none => simp [electionStep, hp]
      | some vn =>
          obtain ⟨v, n⟩ := vn
          simp only [electionStep, hp]
          rcases lt_or_le s.votesRequired (SimpleMajority (r.localPop : Int)) with hl | hl
          · by_cases hv : v = "YES" <;>
              simp [hv, if_pos hl, max_eq_right hl.le]
          · by_cases hv : v = "YES" <;>
              simp [hv, if_neg (not_lt.mpr hl), max_eq_left hl]

/-- Claim C1: for every inbound election.begin(candidate, role) message:
if the role is absent from the store or its status is vacant, the handler
writes `{holder: candidate, status: running, time: msg.lamport}` and
responds `YES candidate`; if the role is present with status confirmed and
holder equal to the candidate, it re-writes the status to running with the
message's Lamport time and responds `YES candidate`; otherwise it responds
`NO holder` and leaves the record unchanged. -/
theorem c1_vote_cases (m : roleMap) (cand r : String) (lt : Nat) :
    ((lookupRole m r = none ∨ ∃ e, lookupRole m r = some e ∧ e.status.vacant = true) →
      vote m cand r lt = (["YES", cand], setRole m r ⟨cand, status.running, lt⟩)) ∧
    (∀ e, lookupRole m r = some e → e.status = status.confirmed → e.node = cand →
      vote m cand r lt = (["YES", cand], setRole m r ⟨cand, status.running, lt⟩)) ∧
    (∀ e, lookupRole m r = some e → e.status.vacant = false →
      ¬(e.status = status.confirmed ∧ e.node = cand) →
      vote m cand r lt = (["NO", e.node], m)) := by
  refine ⟨?_, ?_, ?_⟩
  · rintro (hl | ⟨e, hl, hv⟩)
    · simp [vote, hl]
    · have hnc : ¬ (e.status = status.confirmed ∧ e.node = cand) := by
        rintro ⟨hc, -⟩
        rw [hc] at hv
        exact absurd hv (by decide)
      simp [vote, hl, hnc, hv]
  · intro e hl hc hn
    simp [vote, hl, hc, hn]
  · intro e hl hv hnc
    simp [vote, hl, hnc, hv]

theorem c1_vote_cases_witness :
    lookupRole ([] : roleMap) "leader" = none ∧
    vote [] "A" "leader" 5 =
      (["YES", "A"], setRole [] "leader" ⟨"A", status.running, 5⟩) :=
  ⟨rfl, (c1_vote_cases [] "A" "leader" 5).1 (Or.inl rfl)⟩

/-- Claim C2 counterexample: two single-response streams with the very same
responder payload `"YES A"` but different driver-local membership counts
(3 and 9) leave the driver with different votes_required (3 and 5): the
population figure used by the vote loop is the driver's local
`NumMembers()`, not a member count carried in the response payload (the
later wire format carries none). -/
theorem c2_counterexample :
    (electionTally [⟨["YES", "A"], 3⟩]).votesRequired = 3 ∧
    (electionTally [⟨["YES", "A"], 9⟩]).votesRequired = 5 := by decide

/-- Claim C2 (amended): during a RunElection round, for every response that
parses, the driver recomputes votes_required as the maximum of its current
value and Q applied to the driver's locally observed member count at the
moment the response is processed. -/
theorem c2_votesRequired_from_local_view (rs : List VoteResponse) :
    (electionTally rs).votesRequired =
      rs.foldl
        (fun acc r =>
          match parse2 r.payload with
          | some _ => max acc (SimpleMajority (r.localPop : Int))
          | none => acc)
        (SimpleMajority 3) :=
  foldl_electionStep_votesRequired rs ⟨SimpleMajority 3, 0⟩

/-- Claim C3 counterexample: at p = 9007199254740995 (= 2^53 + 3, a valid
64-bit Go int) the conversion float64(p) rounds half-to-even to 2^53 + 4,
so quorum.go computes 4503599627370499, while max(⌊p × 0.5⌋ + 1, 3) with
the exact mathematical floor is 4503599627370498: the claimed identity
fails once |p| ≥ 2^53. -/
theorem c3_counterexample :
    SimpleMajority 9007199254740995 = 4503599627370499 ∧
    max ((9007199254740995 : Int) / 2 + 1) 3 = 4503599627370498 ∧
    (4503599627370499 : Int) ≠ 4503599627370498 := by decide

/-- Claim C3 (amended): for every population p with |p| < 2^53 — the range
where float64(p) is exact, covering every realizable cluster size —
SimpleMajority(p) equals max(⌊p × 0.5⌋ + 1, 3) (Lean's `Int` division by
the positive constant 2 is floor division); SimpleMajority(p) ≥ 3 for every
integer p; and SimpleMajority 1 = SimpleMajority 3 = SimpleMajority 5 = 3.
For |p| ≥ 2^53 the float64 conversion rounds and the identity can fail by
one (see the counterexample). -/
theorem c3_simpleMajority :
    (∀ p : Int, p.natAbs < 2 ^ 53 → SimpleMajority p = max (p / 2 + 1) 3) ∧
    (∀ p : Int, 3 ≤ SimpleMajority p) ∧
    SimpleMajority 1 = 3 ∧ SimpleMajority 3 = 3 ∧ SimpleMajority 5 = 3 := by
  refine ⟨?_, ?_, by decide, by decide, by decide⟩
  · intro p hp
    cases p with
    | ofNat n =>
        have hn : n < 2 ^ 53 := by simpa using hp
        have hrf : roundFloat n = n := by
          simp only [roundFloat]
          rw [if_pos hn]
        have hval : (Int.ofNat n).sign *
              ((roundFloat (Int.ofNat n).natAbs / 2 : Nat) : Int) =
            ((n / 2 : Nat) : Int) := by
          rw [show (Int.ofNat n).natAbs = n from rfl, hrf]
          cases n with
          | zero => decide
          | succ k => rw [show (Int.ofNat (k + 1)).sign = 1 from rfl, one_mul]
        simp only [SimpleMajority]
        rw [hval, show (Int.ofNat n : Int) = ((n : Nat) : Int) from rfl]
        split <;> omega
    | negSucc n =>
        have hn : n + 1 < 2 ^ 53 := by simpa using hp
        have hrf : roundFloat (n + 1) = n + 1 := by
          simp only [roundFloat]
          rw [if_pos hn]
        have hval : (Int.negSucc n).sign *
              ((roundFloat (Int.negSucc n).natAbs / 2 : Nat) : Int) =
            -(((n + 1) / 2 : Nat) : Int) := by
          rw [show (Int.negSucc n).natAbs = n + 1 from rfl, hrf,
            show (Int.negSucc n).sign = -1 from rfl, neg_one_mul]
        simp only [SimpleMajority]
        rw [hval, Int.negSucc_eq]
        split <;> omega
  · intro p
    simp only [SimpleMajority]
    split <;> omega

theorem c3_simpleMajority_witness :
    ((9 : Int).natAbs < 2 ^ 53) ∧ SimpleMajority 9 = max ((9 : Int) / 2 + 1) 3 :=
  ⟨by decide, c3_simpleMajority.1 9 (by decide)⟩

/-- Claim C4 counterexample: advances(recalled, recalled) = true, although
the claim asserts that every ordered pair other than (running, confirmed),
(impeached, recalled) and (confirmed, confirmed) is rejected. -/
theorem c4_counterexample :
    status.advances status.recalled status.recalled = true := rfl

/-- Claim C4 (amended): the advances predicate (the later `status.confirmed`
method, used by updateTime gossip) holds exactly for the ordered pairs
(running, confirmed), (impeached, recalled), (confirmed, confirmed) and
(recalled, recalled); every other pair is rejected. -/
theorem c4_advances_characterization :
    ∀ s o : status, status.advances s o = true ↔
      ((s = status.running ∧ o = status.confirmed) ∨
       (s = status.impeached ∧ o = status.recalled) ∨
       (s = status.confirmed ∧ o = status.confirmed) ∨
       (s = status.recalled ∧ o = status.recalled)) := by decide

/-- Claim C5 counterexample: compatible(invalid, invalid) = false, although
the claim asserts the predicate holds for every ordered pair drawn from
{running, invalid, recalled, impeached} (and in particular is reflexive on
that set). -/
theorem c5_counterexample :
    status.eq status.invalid status.invalid = false := rfl

/-- Claim C5 (amended): the Resolver's compatible predicate (`status.eq`)
holds exactly when either both sides lie in {confirmed, impeached}, or the
first lies in {running, invalid, recalled} and the second in
{running, recalled, impeached}.  It is reflexive and symmetric on
{confirmed, impeached}; on the transient group it is neither reflexive
(invalid is incompatible with itself) nor symmetric (running accepts
impeached but impeached rejects running). -/
theorem c5_eq_characterization :
    ∀ s o : status, status.eq s o = true ↔
      (((s = status.confirmed ∨ s = status.impeached) ∧
        (o = status.confirmed ∨ o = status.impeached)) ∨
       ((s = status.running ∨ s = status.invalid ∨ s = status.recalled) ∧
        (o = status.running ∨ o = status.recalled ∨ o = status.impeached))) := by
  decide

/-- Claim C6 (code-bug evidence): on the zero-initialised LamportWindow the
first Witness(5) call yields {earliest = 0, latest = 5}: `Witness` has an
uninitialised-zero special case for `latest` (`|| l.latest == 0`) but none
for `earliest`, whose guard `l.earliest > other` never fires from 0, so the
first witness does not initialise the earliest endpoint as the spec states.
The invariant earliest ≤ latest holds, but only degenerately: earliest
remains 0 after every sequence of Witness calls. -/
theorem c6_first_witness_leaves_earliest_zero :
    LamportWindow.Witness ⟨0, 0⟩ 5 = ⟨0, 5⟩ ∧
    (LamportWindow.Witness ⟨0, 0⟩ 5).earliest ≠ 5 ∧
    (∀ ts : List Nat,
      (ts.foldl LamportWindow.Witness ⟨0, 0⟩).earliest ≤
        (ts.foldl LamportWindow.Witness ⟨0, 0⟩).latest) :=
  ⟨by decide, by decide, fun ts => by
    rw [foldl_Witness_earliest ts ⟨0, 0⟩ rfl]
    exact Nat.zero_le _⟩

/-- Claim C7: the QueryRole response loop implements the spec's resolver:
votes_required is updated per response to max(votes_required,
Q(population)) with Q the spec's quorum formula max(⌊population/2⌋ + 1, 3)
(`quorumNat`), the current candidate answer is returned as soon as its vote
count reaches votes_required, and `none` (ErrLostElection) results when the
responses drain without any answer reaching quorum.  The second conjunct
ties `quorumNat` to quorum.go's `SimpleMajority` on populations below 2^53,
where the float64 conversion is exact (beyond that quorum.go's float path
diverges — see the C3 counterexample — while QueryRole itself uses exact
integer division). -/
theorem c7_queryRole_matches_spec :
    (∀ rs : List QueryResponse, QueryRole rs = QueryRoleSpec rs) ∧
    (∀ p : Nat, p < 2 ^ 53 → SimpleMajority (p : Int) = (quorumNat p : Int)) :=
  ⟨fun rs => queryLoop_eq_spec rs 3 ⟨"", status.invalid, 0, ⟨0, 0⟩⟩ (le_refl 3) (by decide),
   simpleMajority_eq_quorumNat⟩

theorem c7_queryRole_matches_spec_witness :
    ((14 : Nat) < 2 ^ 53) ∧ SimpleMajority ((14 : Nat) : Int) = (quorumNat 14 : Int) :=
  ⟨by decide, c7_queryRole_matches_spec.2 14 (by decide)⟩

/-- Claim C8 counterexample: a recall.confirm for a role absent from the
store leaves the store without any record for that role (the later
confirmRecall dropped the earlier generation's creation of
`{holder: "-", status: recalled}`), so the store does not always contain a
recalled record afterwards. -/
theorem c8_counterexample :
    lookupRole (confirmRecall [] "leader" 7) "leader" = none := rfl

/-- Claim C8 (amended): for every inbound recall.confirm(role): if the role
is present, the handler sets status = recalled and updates the time,
leaving the holder unchanged; if the role is absent, the store is left
untouched — no record is created. -/
theorem c8_confirmRecall (m : roleMap) (r : String) (lt : Nat) :
    (∀ e, lookupRole m r = some e →
      lookupRole (confirmRecall m r lt) r = some ⟨e.node, status.recalled, lt⟩) ∧
    (lookupRole m r = none → confirmRecall m r lt = m) := by
  constructor
  · intro e hl
    simp only [confirmRecall, hl]
    exact lookupRole_setRole_self m r _
  · intro hl
    simp only [confirmRecall, hl]

theorem c8_confirmRecall_witness :
    lookupRole [("leader", (⟨"A", status.confirmed, 1⟩ : role))] "leader" =
      some ⟨"A", status.confirmed, 1⟩ ∧
    lookupRole
        (confirmRecall [("leader", ⟨"A", status.confirmed, 1⟩)] "leader" 9) "leader" =
      some ⟨"A", status.recalled, 9⟩ :=
  ⟨rfl, (c8_confirmRecall [("leader", ⟨"A", status.confirmed, 1⟩)] "leader" 9).1 _ rfl⟩

/-- Claim C9 counterexample: with a local store that has never filled the
role ("leader" absent) the recall driver does not return RoleUnfilled; with
no responses it loses the election instead — the later RunRecallElection
performs no local pre-check. -/
theorem c9_counterexample :
    RunRecallElection [] "leader" [] = driverOutcome.lost ∧
    driverOutcome.lost ≠ driverOutcome.roleUnfilled := by decide

/-- Claim C9 (amended): the later RunRecallElection never returns
RoleUnfilled and its vote-gathering outcome is independent of the local
role store (there is no local pre-check); it yields LostElection or
proceeds to the confirmation phase. -/
theorem c9_recall_no_precheck (roles : roleMap) (r : String) (rs : List VoteResponse) :
    RunRecallElection roles r rs ≠ driverOutcome.roleUnfilled ∧
    (∀ roles' : roleMap, RunRecallElection roles r rs = RunRecallElection roles' r rs) := by
  constructor
  · simp only [RunRecallElection]
    split <;> simp
  · intro roles'
    rfl

/-- Claim C10: every LamportWindow reachable from the zero value by Witness
calls keeps earliest = 0, Before is then false for every Lamport time, and
consequently QueryRole's stale-response discard branch is unreachable: the
resolver computes the same answer with that branch deleted. -/
theorem c10_stale_branch_unreachable :
    (∀ ts : List Nat, (ts.foldl LamportWindow.Witness ⟨0, 0⟩).earliest = 0) ∧
    (∀ (ts : List Nat) (t : Nat),
      (ts.foldl LamportWindow.Witness ⟨0, 0⟩).Before t = false) ∧
    (∀ rs : List QueryResponse, QueryRole rs = QueryRoleNoStale rs) :=
  ⟨fun ts => foldl_Witness_earliest ts ⟨0, 0⟩ rfl,
   fun ts t => Before_false_of_earliest_zero _ t (foldl_Witness_earliest ts ⟨0, 0⟩ rfl),
   fun rs => queryLoop_eq_noStale rs 3 ⟨"", status.invalid, 0, ⟨0, 0⟩⟩ rfl⟩
